import Mathlib

/-!
Drift detection and status commit of the Spinnaker operator.

A shallow embedding of `pkg/deployer/config.go` and the properties of its
six functions.

Modelling conventions.

* A Go `string` is a `String`; a Go `error` is `Option GoError`, `none` being
  `nil`; a Go pointer that may be `nil` is an `Option`.
* A Go `map[string]T` is `GoMap T`: `none` is the nil map, `some bs` a non-nil
  map given by a list of bindings in which the first binding of a key is the
  one in force.  The order of the list is the order of insertion and has no
  meaning for the map.
* Every function that reaches the cluster returns a `Run`: the external calls
  it made, in order, and what it returned.  `ret = none` is a run without a
  return value in this model: the slice `serviceName[len("spin-"):]` is out of
  range (a run-time panic) or cuts a rune in two.
* The receiver `d *Deployer` is the record `Env` of the answers of the
  collaborators: the functions of `util`, of `halconfig` and of the API types
  are not part of `config.go` and are taken as parameters.
* Log lines (`rLogger.Info`) do not influence any returned value and are not
  modelled.  Pointers received as arguments (`svc`, `status`, the `ConfigMap`
  or `Secret` behind `config`) are taken to be non-nil.
-/

namespace Deployer

/-! ## Data model -/

/-- A Go `error` value that is not `nil`, identified by its message. -/
structure GoError where
  msg : String
  deriving DecidableEq, Repr

/-- A Go `map[string]β`; `none` is the nil map. -/
abbrev GoMap (β : Type) := Option (List (String × β))

/-- The Go expression `m[k]` with its `ok` flag, `MapIndex` of package reflect:
`none` when the key is absent (always, on a nil map). -/
def GoMap.index {β : Type} (m : GoMap β) (k : String) : Option β :=
  match m with
  | none => none
  | some bs => (bs.find? (fun p => p.1 == k)).map Prod.snd

/-- The keys of the map, each once. -/
def GoMap.keys {β : Type} (m : GoMap β) : List String :=
  match m with
  | none => []
  | some bs => (bs.map Prod.fst).dedup

/-- The Go expression `len(m)`. -/
def GoMap.len {β : Type} (m : GoMap β) : Nat := m.keys.length

/-- The test `m == nil`. -/
def GoMap.isNil {β : Type} (m : GoMap β) : Bool := m.isNone

/-- `reflect.DeepEqual` at type `map[string]string`: both nil or both non-nil,
the same length, and every key of the first bound in the second to an equal
value. -/
def DeepEqual (v1 v2 : GoMap String) : Bool :=
  if v1.isNil != v2.isNil then false
  else if v1.len != v2.len then false
  else v1.keys.all (fun k =>
    match v1.index k, v2.index k with
    | some a, some b => a == b
    | _, _ => false)

/-- `metav1.ObjectMeta`, the fields the code reads. -/
structure ObjectMeta where
  Name : String
  Namespace : String
  ResourceVersion : String
  Annotations : GoMap String
  deriving DecidableEq, Repr

/-- `SpinnakerFileSourceReferenceStatus`. -/
structure SpinnakerFileSourceReferenceStatus where
  Name : String
  Namespace : String
  ResourceVersion : String
  deriving DecidableEq, Repr

/-- `SpinnakerFileSourceStatus`: two pointers, each possibly nil. -/
structure SpinnakerFileSourceStatus where
  ConfigMap : Option SpinnakerFileSourceReferenceStatus
  Secret : Option SpinnakerFileSourceReferenceStatus
  deriving DecidableEq, Repr

/-- A reading of the clock, `metav1.Time`. -/
abbrev Time := Nat

/-- `SpinnakerServiceStatus`.  `rest` stands for all the fields `config.go`
never names. -/
structure SpinnakerServiceStatus (ρ : Type) where
  LastConfigurationTime : Time
  HalConfig : SpinnakerFileSourceStatus
  UIUrl : String
  APIUrl : String
  rest : ρ
  deriving DecidableEq, Repr

/-- `ExposeConfigServiceOverrides`. -/
structure ExposeConfigServiceOverrides where
  Type_ : String
  Annotations : GoMap String
  deriving DecidableEq, Repr

/-- `ExposeConfigService`. -/
structure ExposeConfigService where
  Type_ : String
  Annotations : GoMap String
  Overrides : GoMap ExposeConfigServiceOverrides
  deriving DecidableEq, Repr

/-- `ExposeConfig`. -/
structure ExposeConfig where
  Type_ : String
  Service : ExposeConfigService
  deriving DecidableEq, Repr

/-- `SpinnakerServiceSpec`, the part the code reads. -/
structure SpinnakerServiceSpec where
  Expose : ExposeConfig
  deriving DecidableEq, Repr

/-- `SpinnakerService`. -/
structure SpinnakerService (ρ : Type) where
  ObjectMeta : ObjectMeta
  Spec : SpinnakerServiceSpec
  Status : SpinnakerServiceStatus ρ
  deriving DecidableEq, Repr

/-- `corev1.ServiceSpec`, the field the code reads. -/
structure ServiceSpec where
  Type_ : String
  deriving DecidableEq, Repr

/-- `corev1.Service`. -/
structure Service where
  ObjectMeta : ObjectMeta
  Spec : ServiceSpec
  deriving DecidableEq, Repr

/-- `runtime.Object` as the two type assertions of the code see it: a
`*corev1.ConfigMap`, a `*corev1.Secret`, or anything else (the nil interface
included). -/
inductive RuntimeObject where
  | ConfigMap (ObjectMeta : ObjectMeta)
  | Secret (ObjectMeta : ObjectMeta)
  | Other
  deriving DecidableEq, Repr

/-- `halconfig.SpinnakerConfig`, as the answers of its method
`GetHalConfigPropBool(prop, default)`. -/
structure SpinnakerConfig where
  GetHalConfigPropBool : String → Bool → Except GoError Bool

/-- An external call. -/
inductive Call (ρ : Type) where
  | GetHalConfigPropBool (prop : String) (dflt : Bool)
  | GetService (name ns : String)
  | FindLoadBalancerUrl (name ns : String) (sslEnabled : Bool)
  | StatusUpdate (obj : SpinnakerService ρ)
  deriving DecidableEq, Repr

/-- What a function did: the external calls in order, and the returned value,
`none` when the run ends in a panic or leaves this model of strings. -/
structure Run (ρ α : Type) where
  calls : List (Call ρ)
  ret : Option α
  deriving DecidableEq, Repr

/-- The receiver `d` and the collaborators reached through it. -/
structure Env (ρ : Type) where
  /-- `unicode.ToLower`, the rune map behind `strings.ToLower`. -/
  lower : Char → Char
  /-- `util.GetService(name, ns, d.client)`; `.ok none` is a nil service. -/
  GetService : String → String → Except GoError (Option Service)
  /-- `util.FindLoadBalancerUrl(name, ns, d.client, sslEnabled)`. -/
  FindLoadBalancerUrl : String → String → Bool → Except GoError String
  /-- `spinSvc.GetAggregatedAnnotations(name)`. -/
  GetAggregatedAnnotations : SpinnakerService ρ → String → GoMap String
  /-- `d.client.Status().Update(ctx, obj)`. -/
  StatusUpdate : SpinnakerService ρ → Option GoError
  /-- Constant `util.DeckSSLEnabledProp`. -/
  DeckSSLEnabledProp : String
  /-- Constant `util.GateSSLEnabledProp`. -/
  GateSSLEnabledProp : String

/-- Modelled from the spec: the constant `util.DeckServiceName`, declared
outside `config.go`, is the canonical name of the UI service, `spin-deck`, the
literal `isExposeServiceUpToDate` compares its argument with. -/
def DeckServiceName : String := "spin-deck"

/-- Modelled from the spec: the constant `util.GateServiceName`, declared
outside `config.go`, is the canonical name of the API gateway service,
`spin-gate`. -/
def GateServiceName : String := "spin-gate"

/-- `strings.ToLower`: the rune map applied to every rune. -/
def ToLower (lower : Char → Char) (s : String) : String := ⟨s.data.map lower⟩

/-- The runes left when the first `n` bytes of the UTF-8 encoding are dropped:
`none` when there are fewer than `n` bytes, and when the cut falls inside a
rune. -/
def dropBytes : List Char → Nat → Option (List Char)
  | cs, 0 => some cs
  | [], _ + 1 => none
  | c :: cs, n + 1 =>
    if c.utf8Size ≤ n + 1 then dropBytes cs (n + 1 - c.utf8Size) else none

/-- The slice `s[n:]`, on bytes as in Go.  It is `none` when `n` exceeds the
length in bytes, where Go panics, and when the cut falls inside a rune, where
what Go returns is not valid UTF-8 and so no `String`; in every other case it
is the string Go returns. -/
def sliceFrom (s : String) (n : Nat) : Option String :=
  (dropBytes s.data n).map String.mk

/-! ## The functions of `config.go` -/

variable {ρ : Type}

/-- `isHalconfigUpToDate`. -/
def isHalconfigUpToDate (instance_ : SpinnakerService ρ) (config : RuntimeObject) : Bool :=
  let hcStat := instance_.Status.HalConfig
  match config with
  | .ConfigMap cm =>
    match hcStat.ConfigMap with
    | none => false
    | some cmStatus =>
      cmStatus.Name == cm.Name && cmStatus.Namespace == cm.Namespace &&
        cmStatus.ResourceVersion == cm.ResourceVersion
  | .Secret sec =>
    match hcStat.Secret with
    | none => false
    | some secStatus =>
      secStatus.Name == sec.Name && secStatus.Namespace == sec.Namespace &&
        secStatus.ResourceVersion == sec.ResourceVersion
  | .Other => false

/-- `exposeServiceTypeUpToDate`. -/
def exposeServiceTypeUpToDate (serviceName : String) (spinSvc : SpinnakerService ρ)
    (svc : Service) : Option (Bool × Option GoError) :=
  match sliceFrom serviceName "spin-".utf8ByteSize with
  | none => none
  | some formattedServiceName =>
    match spinSvc.Spec.Expose.Service.Overrides.index formattedServiceName with
    | some c =>
      if c.Type_ != "" then
        if svc.Spec.Type_ != c.Type_ then some (false, none) else some (true, none)
      else
        if svc.Spec.Type_ != spinSvc.Spec.Expose.Service.Type_ then some (false, none)
        else some (true, none)
    | none =>
      if svc.Spec.Type_ != spinSvc.Spec.Expose.Service.Type_ then some (false, none)
      else some (true, none)

/-- The local `statusUrl` of `isExposeServiceUpToDate`: `Status.APIUrl`,
overwritten with `Status.UIUrl` when the service is `spin-deck`. -/
def statusUrl (spinSvc : SpinnakerService ρ) (serviceName : String) : String :=
  if serviceName == "spin-deck" then spinSvc.Status.UIUrl else spinSvc.Status.APIUrl

/-- `isExposeServiceUpToDate`. -/
def isExposeServiceUpToDate (d : Env ρ) (spinSvc : SpinnakerService ρ) (serviceName : String)
    (hcSSLEnabled : Bool) : Run ρ (Bool × Option GoError) :=
  let ns := spinSvc.ObjectMeta.Namespace
  match d.GetService serviceName ns with
  | .error err => ⟨[.GetService serviceName ns], some (false, some err)⟩
  | .ok none => ⟨[.GetService serviceName ns], some (false, none)⟩
  | .ok (some svc) =>
    match exposeServiceTypeUpToDate serviceName spinSvc svc with
    | none => ⟨[.GetService serviceName ns], none⟩
    | some (upToDate, err) =>
      if !upToDate || err.isSome then ⟨[.GetService serviceName ns], some (false, err)⟩
      else
        match sliceFrom serviceName "spin-".utf8ByteSize with
        | none => ⟨[.GetService serviceName ns], none⟩
        | some simpleServiceName =>
          let expectedAnnotations := d.GetAggregatedAnnotations spinSvc simpleServiceName
          if !DeepEqual svc.ObjectMeta.Annotations expectedAnnotations then
            ⟨[.GetService serviceName ns], some (false, none)⟩
          else
            if statusUrl spinSvc serviceName == "" then
              match d.FindLoadBalancerUrl serviceName ns hcSSLEnabled with
              | .error err =>
                ⟨[.GetService serviceName ns, .FindLoadBalancerUrl serviceName ns hcSSLEnabled],
                  some (false, some err)⟩
              | .ok lbUrl =>
                if lbUrl != "" then
                  ⟨[.GetService serviceName ns, .FindLoadBalancerUrl serviceName ns hcSSLEnabled],
                    some (false, none)⟩
                else
                  ⟨[.GetService serviceName ns, .FindLoadBalancerUrl serviceName ns hcSSLEnabled],
                    some (true, none)⟩
            else ⟨[.GetService serviceName ns], some (true, none)⟩

/-- The value of a boolean property with the fallback of the code: `false`
when the lookup fails. -/
def sslEnabledOr (r : Except GoError Bool) : Bool :=
  match r with
  | .error _ => false
  | .ok b => b

/-- `isExposeConfigUpToDate`. -/
def isExposeConfigUpToDate (d : Env ρ) (svc : SpinnakerService ρ) (hc : SpinnakerConfig) :
    Run ρ (Bool × Option GoError) :=
  let t := ToLower d.lower svc.Spec.Expose.Type_
  if t == "" then ⟨[], some (true, none)⟩
  else if t == "service" then
    let isDeckSSLEnabled := sslEnabledOr (hc.GetHalConfigPropBool d.DeckSSLEnabledProp false)
    let deck := isExposeServiceUpToDate d svc DeckServiceName isDeckSSLEnabled
    let c1 := Call.GetHalConfigPropBool d.DeckSSLEnabledProp false :: deck.calls
    match deck.ret with
    | none => ⟨c1, none⟩
    | some (upToDateDeck, err) =>
      if !upToDateDeck || err.isSome then ⟨c1, some (false, err)⟩
      else
        let isGateSSLEnabled := sslEnabledOr (hc.GetHalConfigPropBool d.GateSSLEnabledProp false)
        let gate := isExposeServiceUpToDate d svc GateServiceName isGateSSLEnabled
        let c2 := c1 ++ Call.GetHalConfigPropBool d.GateSSLEnabledProp false :: gate.calls
        match gate.ret with
        | none => ⟨c2, none⟩
        | some (upToDateGate, err) =>
          if !upToDateGate || err.isSome then ⟨c2, some (false, err)⟩
          else ⟨c2, some (true, none)⟩
  else
    ⟨[], some (false, some ⟨"expose type " ++ svc.Spec.Expose.Type_ ++
      " not supported. Valid types: \"service\""⟩)⟩

/-- `IsConfigUpToDate`. -/
def IsConfigUpToDate (d : Env ρ) (svc : SpinnakerService ρ) (config : RuntimeObject)
    (hc : SpinnakerConfig) : Run ρ (Bool × Option GoError) :=
  if !isHalconfigUpToDate svc config then ⟨[], some (false, none)⟩
  else
    let r := isExposeConfigUpToDate d svc hc
    match r.ret with
    | none => ⟨r.calls, none⟩
    | some (upToDate, err) =>
      if err.isSome then ⟨r.calls, some (false, err)⟩
      else if !upToDate then ⟨r.calls, some (false, none)⟩
      else ⟨r.calls, some (true, none)⟩

/-- What `commitConfigToStatus` leaves behind: the record behind the pointer
`status`, the calls made and the returned error. -/
structure CommitResult (ρ : Type) where
  status : SpinnakerServiceStatus ρ
  calls : List (Call ρ)
  err : Option GoError

/-- The assignments of `commitConfigToStatus` to `status.HalConfig`. -/
def commitHalConfig (old : SpinnakerFileSourceStatus) (config : RuntimeObject) :
    SpinnakerFileSourceStatus :=
  match config with
  | .ConfigMap cm =>
    { ConfigMap := some { Name := cm.Name, Namespace := cm.Namespace,
                          ResourceVersion := cm.ResourceVersion },
      Secret := none }
  | .Secret sec =>
    { ConfigMap := none,
      Secret := some { Name := sec.Name, Namespace := sec.Namespace,
                       ResourceVersion := sec.ResourceVersion } }
  | .Other => old

/-- `commitConfigToStatus`; `now` is what `time.Now()` returns. -/
def commitConfigToStatus (d : Env ρ) (now : Time) (svc : SpinnakerService ρ)
    (status : SpinnakerServiceStatus ρ) (config : RuntimeObject) : CommitResult ρ :=
  let status1 := { status with HalConfig := commitHalConfig status.HalConfig config }
  let status2 := { status1 with LastConfigurationTime := now }
  let s := { svc with Status := status2 }
  { status := status2, calls := [.StatusUpdate s], err := d.StatusUpdate s }

/-! ## The desired exposure type, as the specification words it -/

/-- The desired exposure type of the service with the given short name: the
override for it when one exists and its type is not empty, else the global
default of the spec. -/
def desiredExposeType (spinSvc : SpinnakerService ρ) (shortName : String) : String :=
  match spinSvc.Spec.Expose.Service.Overrides.index shortName with
  | some c => if c.Type_ = "" then spinSvc.Spec.Expose.Service.Type_ else c.Type_
  | none => spinSvc.Spec.Expose.Service.Type_

/-! ## Vocabulary of the properties -/

/-- The check of the UI service as `isExposeConfigUpToDate` makes it in service
mode: `spin-deck`, with the SSL flag read from `DeckSSLEnabledProp`. -/
def deckCheck (d : Env ρ) (svc : SpinnakerService ρ) (hc : SpinnakerConfig) :
    Run ρ (Bool × Option GoError) :=
  isExposeServiceUpToDate d svc DeckServiceName
    (sslEnabledOr (hc.GetHalConfigPropBool d.DeckSSLEnabledProp false))

/-- The check of the API gateway service as `isExposeConfigUpToDate` makes it
in service mode: `spin-gate`, with the SSL flag read from `GateSSLEnabledProp`. -/
def gateCheck (d : Env ρ) (svc : SpinnakerService ρ) (hc : SpinnakerConfig) :
    Run ρ (Bool × Option GoError) :=
  isExposeServiceUpToDate d svc GateServiceName
    (sslEnabledOr (hc.GetHalConfigPropBool d.GateSSLEnabledProp false))

/-- The call is a live-service or load-balancer lookup that the cluster
answers with the error `e`. -/
def lookupFailedWith (d : Env ρ) (e : GoError) : Call ρ → Bool
  | .GetService name ns =>
    match d.GetService name ns with
    | .error err => err == e
    | .ok _ => false
  | .FindLoadBalancerUrl name ns sslEnabled =>
    match d.FindLoadBalancerUrl name ns sslEnabled with
    | .error err => err == e
    | .ok _ => false
  | _ => false

/-- The call names the service `name`. -/
def callNames (name : String) : Call ρ → Bool
  | .GetService n _ => n == name
  | .FindLoadBalancerUrl n _ _ => n == name
  | _ => false

/-- The rendered configuration in which every failing property lookup of `hc`
succeeds with the value `false` instead. -/
def absorbFailures (hc : SpinnakerConfig) : SpinnakerConfig where
  GetHalConfigPropBool := fun prop dflt =>
    match hc.GetHalConfigPropBool prop dflt with
    | .error _ => .ok false
    | .ok b => .ok b

/-- The recorded references are of the variant of `config`: that one set, the
other nil. -/
def recordsVariantOf (hs : SpinnakerFileSourceStatus) (config : RuntimeObject) : Bool :=
  match config with
  | .ConfigMap _ => hs.ConfigMap.isSome && hs.Secret.isNone
  | .Secret _ => hs.Secret.isSome && hs.ConfigMap.isNone
  | .Other => false

/-- The two annotation maps have the same keys with the same values, a nil
map having no key. -/
def sameEntries (a b : GoMap String) : Bool :=
  (a.keys ++ b.keys).all (fun k => a.index k == b.index k)

/-- The service with another expose type, all else kept. -/
def withExposeType (svc : SpinnakerService ρ) (t : String) : SpinnakerService ρ :=
  { svc with Spec := { svc.Spec with Expose := { svc.Spec.Expose with Type_ := t } } }

/-! ## Concrete inputs -/

/-- A cluster with no service and no load balancer, where every call succeeds. -/
def emptyCluster : Env Unit where
  lower := Char.toLower
  GetService := fun _ _ => .ok none
  FindLoadBalancerUrl := fun _ _ _ => .ok ""
  GetAggregatedAnnotations := fun _ _ => some []
  StatusUpdate := fun _ => none
  DeckSSLEnabledProp := "deck.ssl"
  GateSSLEnabledProp := "gate.ssl"

/-- A rendered configuration in which no property is set. -/
def plainConfig : SpinnakerConfig where
  GetHalConfigPropBool := fun _ dflt => .ok dflt

/-- Metadata of the live config object `spin/halconfig` at version `7`. -/
def liveMeta : ObjectMeta :=
  { Name := "halconfig", Namespace := "spin", ResourceVersion := "7", Annotations := none }

/-- The reference to `liveMeta`. -/
def liveRef : SpinnakerFileSourceReferenceStatus :=
  { Name := "halconfig", Namespace := "spin", ResourceVersion := "7" }

/-- A service with the given expose type and recorded references, no URL set. -/
def demoService (exposeType : String) (hs : SpinnakerFileSourceStatus) : SpinnakerService Unit :=
  { ObjectMeta := { Name := "spinnaker", Namespace := "spin", ResourceVersion := "1",
                    Annotations := none },
    Spec := { Expose := { Type_ := exposeType,
                          Service := { Type_ := "ClusterIP", Annotations := none,
                                       Overrides := none } } },
    Status := { LastConfigurationTime := 0, HalConfig := hs, UIUrl := "", APIUrl := "",
                rest := () } }

/-- The reference to `liveMeta` at another version. -/
def staleRef : SpinnakerFileSourceReferenceStatus :=
  { Name := "halconfig", Namespace := "spin", ResourceVersion := "8" }

/-- A service exposing through Kubernetes services of the default type
`ClusterIP`, with the given overrides. -/
def exposedService (overrides : GoMap ExposeConfigServiceOverrides) : SpinnakerService Unit :=
  { ObjectMeta := { Name := "spinnaker", Namespace := "spin", ResourceVersion := "1",
                    Annotations := none },
    Spec := { Expose := { Type_ := "service",
                          Service := { Type_ := "ClusterIP", Annotations := none,
                                       Overrides := overrides } } },
    Status := { LastConfigurationTime := 0, HalConfig := ⟨some liveRef, none⟩, UIUrl := "",
                APIUrl := "", rest := () } }

/-- A cluster in which every service asked for exists with type `ClusterIP`
and the annotations `observed`, no load balancer has an address yet, and the
aggregated annotations are `expected`. -/
def clusterWith (observed expected : GoMap String) : Env Unit where
  lower := Char.toLower
  GetService := fun name ns =>
    .ok (some { ObjectMeta := { Name := name, Namespace := ns, ResourceVersion := "3",
                                Annotations := observed },
                Spec := { Type_ := "ClusterIP" } })
  FindLoadBalancerUrl := fun _ _ _ => .ok ""
  GetAggregatedAnnotations := fun _ _ => expected
  StatusUpdate := fun _ => none
  DeckSSLEnabledProp := "deck.ssl"
  GateSSLEnabledProp := "gate.ssl"

/-- A cluster in which every service asked for exists with type `ClusterIP`
and no annotation map, no annotation is expected, and every load balancer has
the address `lbUrl`. -/
def readyCluster (lbUrl : String) : Env Unit where
  lower := Char.toLower
  GetService := fun name ns =>
    .ok (some { ObjectMeta := { Name := name, Namespace := ns, ResourceVersion := "3",
                                Annotations := none },
                Spec := { Type_ := "ClusterIP" } })
  FindLoadBalancerUrl := fun _ _ _ => .ok lbUrl
  GetAggregatedAnnotations := fun _ _ => none
  StatusUpdate := fun _ => none
  DeckSSLEnabledProp := "deck.ssl"
  GateSSLEnabledProp := "gate.ssl"

/-- The service `exposedService none` with the given status URLs. -/
def exposedServiceAt (uiUrl apiUrl : String) : SpinnakerService Unit :=
  { exposedService none with
    Status := { (exposedService none).Status with UIUrl := uiUrl, APIUrl := apiUrl } }

/-- A cluster that cannot be reached: every lookup fails with
`connection refused` and the status update is rejected with `conflict`. -/
def brokenCluster : Env Unit where
  lower := Char.toLower
  GetService := fun _ _ => .error ⟨"connection refused"⟩
  FindLoadBalancerUrl := fun _ _ _ => .error ⟨"connection refused"⟩
  GetAggregatedAnnotations := fun _ _ => none
  StatusUpdate := fun _ => some ⟨"conflict"⟩
  DeckSSLEnabledProp := "deck.ssl"
  GateSSLEnabledProp := "gate.ssl"

/-- The cluster `readyCluster lbUrl` with a load-balancer lookup that fails
with `timeout` for every service but `spin-deck`. -/
def gateLbDownCluster (lbUrl : String) : Env Unit :=
  { readyCluster lbUrl with
    FindLoadBalancerUrl := fun name _ _ =>
      if name == "spin-deck" then .ok lbUrl else .error ⟨"timeout"⟩ }

/-- A rendered configuration in which every property lookup fails. -/
def unreadableConfig : SpinnakerConfig where
  GetHalConfigPropBool := fun _ _ => .error ⟨"no such property"⟩

/-- A status with nothing recorded. -/
def emptyStatus : SpinnakerServiceStatus Unit :=
  { LastConfigurationTime := 0, HalConfig := ⟨none, none⟩, UIUrl := "", APIUrl := "",
    rest := () }

/-- An observed Kubernetes service of the given type and annotations. -/
def observedService (name type_ : String) (annotations : GoMap String) : Service :=
  { ObjectMeta := { Name := name, Namespace := "spin", ResourceVersion := "3",
                    Annotations := annotations },
    Spec := { Type_ := type_ } }

end Deployer

/-! ## Properties -/

namespace Deployer

variable {ρ : Type}

/-- `strings.ToLower` gives the empty string on the empty string only. -/
theorem ToLower_eq_empty (lower : Char → Char) (s : String) :
    ToLower lower s = "" ↔ s = "" := by
  rcases s with ⟨cs⟩
  cases cs with
  | nil => simp [ToLower]
  | cons c cs =>
    constructor
    · intro h
      have h2 := congrArg String.data h
      simp [ToLower] at h2
    · intro h
      have h2 := congrArg String.data h
      simp at h2

/-- A key has a binding exactly when it is among the keys. -/
theorem GoMap.index_isSome_iff {β : Type} (bs : List (String × β)) (k : String) :
    (GoMap.index (some bs) k).isSome = true ↔ k ∈ GoMap.keys (some bs) := by
  simp only [GoMap.index, GoMap.keys, Option.isSome_map', List.find?_isSome, List.mem_dedup,
    List.mem_map]
  constructor
  · rintro ⟨p, hp, hk⟩
    exact ⟨p, hp, by simpa using hk⟩
  · rintro ⟨p, hp, hk⟩
    exact ⟨p, hp, by simpa using hk⟩

/-- A key has no binding exactly when it is not among the keys. -/
theorem GoMap.index_eq_none_iff {β : Type} (bs : List (String × β)) (k : String) :
    GoMap.index (some bs) k = none ↔ k ∉ GoMap.keys (some bs) := by
  rw [← GoMap.index_isSome_iff]
  cases GoMap.index (some bs) k <;> simp

/-- The list of keys has no repetition. -/
theorem GoMap.keys_nodup {β : Type} (m : GoMap β) : m.keys.Nodup := by
  cases m with
  | none => simp [GoMap.keys]
  | some bs => exact List.nodup_dedup _

/-- `reflect.DeepEqual` on two maps: the same nil-ness and the same binding
for every key. -/
theorem DeepEqual_iff (v1 v2 : GoMap String) :
    DeepEqual v1 v2 = true ↔ (v1.isNil = v2.isNil ∧ ∀ k, v1.index k = v2.index k) := by
  cases v1 with
  | none =>
    cases v2 with
    | none => simp [DeepEqual, GoMap.isNil, GoMap.len, GoMap.keys]
    | some ys => simp [DeepEqual, GoMap.isNil]
  | some xs =>
    cases v2 with
    | none => simp [DeepEqual, GoMap.isNil]
    | some ys =>
      have hall : ((GoMap.keys (some xs)).all (fun k =>
          match GoMap.index (some xs) k, GoMap.index (some ys) k with
          | some a, some b => a == b
          | _, _ => false) = true) ↔
          ∀ k ∈ GoMap.keys (some xs), ∃ a, GoMap.index (some xs) k = some a ∧
            GoMap.index (some ys) k = some a := by
        rw [List.all_eq_true]
        refine forall_congr' fun k => imp_congr_right fun _ => ?_
        cases hx : GoMap.index (some xs) k with
        | none => simp
        | some a =>
          cases hy : GoMap.index (some ys) k with
          | none => simp
          | some b =>
            simp only [beq_iff_eq, Option.some.injEq, exists_eq_left']
            exact eq_comm
      have hD : DeepEqual (some xs) (some ys) = true ↔
          ((GoMap.keys (some xs)).length = (GoMap.keys (some ys)).length ∧
            ∀ k ∈ GoMap.keys (some xs), ∃ a, GoMap.index (some xs) k = some a ∧
              GoMap.index (some ys) k = some a) := by
        rw [← hall]
        by_cases hl : (GoMap.keys (some xs)).length = (GoMap.keys (some ys)).length
        · simp [DeepEqual, GoMap.isNil, GoMap.len, hl]
        · simp [DeepEqual, GoMap.isNil, GoMap.len, hl]
      rw [hD]
      simp only [GoMap.isNil, Option.isNone_some, true_and]
      constructor
      · rintro ⟨hlen, hk⟩ k
        have hsub : GoMap.keys (some xs) ⊆ GoMap.keys (some ys) := by
          intro k hkx
          obtain ⟨a, _, hb⟩ := hk k hkx
          rw [← GoMap.index_isSome_iff, hb]
          rfl
        have hperm : (GoMap.keys (some xs)).Perm (GoMap.keys (some ys)) :=
          (List.subperm_of_subset (GoMap.keys_nodup _) hsub).perm_of_length_le (le_of_eq hlen.symm)
        by_cases hkx : k ∈ GoMap.keys (some xs)
        · obtain ⟨a, ha, hb⟩ := hk k hkx
          rw [ha, hb]
        · have hky : k ∉ GoMap.keys (some ys) := fun h => hkx (hperm.mem_iff.2 h)
          rw [(GoMap.index_eq_none_iff xs k).2 hkx, (GoMap.index_eq_none_iff ys k).2 hky]
      · intro h
        have hmem : ∀ k, k ∈ GoMap.keys (some xs) ↔ k ∈ GoMap.keys (some ys) := by
          intro k
          rw [← GoMap.index_isSome_iff, ← GoMap.index_isSome_iff, h k]
        refine ⟨?_, ?_⟩
        · exact ((List.perm_ext_iff_of_nodup (GoMap.keys_nodup _) (GoMap.keys_nodup _)).2
            hmem).length_eq
        · intro k hkx
          have hs := (GoMap.index_isSome_iff xs k).2 hkx
          cases ha : GoMap.index (some xs) k with
          | none => rw [ha] at hs; simp at hs
          | some a => exact ⟨a, rfl, by rw [← h k, ha]⟩
/-- A run of `IsConfigUpToDate` on a stale config reference. -/
theorem IsConfigUpToDate_of_stale (d : Env ρ) (svc : SpinnakerService ρ)
    (config : RuntimeObject) (hc : SpinnakerConfig)
    (h : isHalconfigUpToDate svc config = false) :
    IsConfigUpToDate d svc config hc = ⟨[], some (false, none)⟩ := by
  simp [IsConfigUpToDate, h]

/-- C1: `isHalconfigUpToDate` is true exactly when a reference is recorded
under the variant of the live config (ConfigMap or Secret) and its name,
namespace and resourceVersion are those of the live config; with no reference
recorded it is false. -/
theorem isHalconfigUpToDate_iff (instance_ : SpinnakerService ρ) (config : RuntimeObject) :
    (isHalconfigUpToDate instance_ config = true ↔
      ∃ r : SpinnakerFileSourceReferenceStatus,
        (∃ cm, config = .ConfigMap cm ∧ instance_.Status.HalConfig.ConfigMap = some r ∧
          r.Name = cm.Name ∧ r.Namespace = cm.Namespace ∧
          r.ResourceVersion = cm.ResourceVersion) ∨
        (∃ sec, config = .Secret sec ∧ instance_.Status.HalConfig.Secret = some r ∧
          r.Name = sec.Name ∧ r.Namespace = sec.Namespace ∧
          r.ResourceVersion = sec.ResourceVersion)) ∧
    isHalconfigUpToDate
      { instance_ with Status := { instance_.Status with HalConfig := ⟨none, none⟩ } }
      config = false := by
  constructor
  · cases config with
    | ConfigMap cm =>
      cases hcm : instance_.Status.HalConfig.ConfigMap with
      | none => simp [isHalconfigUpToDate, hcm]
      | some r => simp [isHalconfigUpToDate, hcm, and_assoc]
    | Secret sec =>
      cases hs : instance_.Status.HalConfig.Secret with
      | none => simp [isHalconfigUpToDate, hs]
      | some r => simp [isHalconfigUpToDate, hs, and_assoc]
    | Other => simp [isHalconfigUpToDate]
  · cases config <;> simp [isHalconfigUpToDate]

/-- C2: when the recorded config reference is the live one and the expose type
is empty (mode none), `IsConfigUpToDate` returns `(true, nil)` and makes no
external call, whatever the cluster and the rendered configuration answer. -/
theorem IsConfigUpToDate_mode_none (d : Env ρ) (svc : SpinnakerService ρ)
    (config : RuntimeObject) (hc : SpinnakerConfig)
    (hcfg : isHalconfigUpToDate svc config = true)
    (hmode : svc.Spec.Expose.Type_ = "") :
    IsConfigUpToDate d svc config hc = ⟨[], some (true, none)⟩ := by
  have ht : ToLower d.lower svc.Spec.Expose.Type_ = "" := (ToLower_eq_empty _ _).2 hmode
  simp [IsConfigUpToDate, hcfg, isExposeConfigUpToDate, ht]

/-- Witness of C2: a ConfigMap recorded at the live version, mode none. -/
theorem IsConfigUpToDate_mode_none_witness :
    isHalconfigUpToDate (demoService "" ⟨some liveRef, none⟩) (.ConfigMap liveMeta) = true ∧
    (demoService "" ⟨some liveRef, none⟩).Spec.Expose.Type_ = "" ∧
    IsConfigUpToDate emptyCluster (demoService "" ⟨some liveRef, none⟩) (.ConfigMap liveMeta)
      plainConfig = ⟨[], some (true, none)⟩ :=
  ⟨by decide, by decide,
    IsConfigUpToDate_mode_none emptyCluster (demoService "" ⟨some liveRef, none⟩)
      (.ConfigMap liveMeta) plainConfig (by decide) (by decide)⟩

/-- C3 as stated fails: with expose type `ingress` and no config reference
recorded, `IsConfigUpToDate` returns `(false, nil)`. -/
theorem IsConfigUpToDate_unsupported_stale :
    ToLower emptyCluster.lower (demoService "ingress" ⟨none, none⟩).Spec.Expose.Type_ ≠ "" ∧
    ToLower emptyCluster.lower (demoService "ingress" ⟨none, none⟩).Spec.Expose.Type_
      ≠ "service" ∧
    IsConfigUpToDate emptyCluster (demoService "ingress" ⟨none, none⟩) (.ConfigMap liveMeta)
      plainConfig = ⟨[], some (false, none)⟩ := by
  decide

/-- C3, amended: when the recorded config reference is the live one and the
lowercased expose type is neither empty nor `service`, `IsConfigUpToDate`
returns `false` with the unsupported-expose-type error, which is not nil, and
makes no external call. -/
theorem IsConfigUpToDate_unsupported (d : Env ρ) (svc : SpinnakerService ρ)
    (config : RuntimeObject) (hc : SpinnakerConfig)
    (hcfg : isHalconfigUpToDate svc config = true)
    (hnone : ToLower d.lower svc.Spec.Expose.Type_ ≠ "")
    (hservice : ToLower d.lower svc.Spec.Expose.Type_ ≠ "service") :
    IsConfigUpToDate d svc config hc =
        ⟨[], some (false, some ⟨"expose type " ++ svc.Spec.Expose.Type_ ++
          " not supported. Valid types: \"service\""⟩)⟩ ∧
      (IsConfigUpToDate d svc config hc).ret ≠ some (false, none) := by
  have h : IsConfigUpToDate d svc config hc =
      ⟨[], some (false, some ⟨"expose type " ++ svc.Spec.Expose.Type_ ++
        " not supported. Valid types: \"service\""⟩)⟩ := by
    simp [IsConfigUpToDate, hcfg, isExposeConfigUpToDate, hnone, hservice]
  exact ⟨h, by simp [h]⟩

/-- Witness of C3, amended: expose type `ingress` with the live ConfigMap
recorded. -/
theorem IsConfigUpToDate_unsupported_witness :
    isHalconfigUpToDate (demoService "ingress" ⟨some liveRef, none⟩) (.ConfigMap liveMeta)
      = true ∧
    ToLower emptyCluster.lower (demoService "ingress" ⟨some liveRef, none⟩).Spec.Expose.Type_
      ≠ "" ∧
    ToLower emptyCluster.lower (demoService "ingress" ⟨some liveRef, none⟩).Spec.Expose.Type_
      ≠ "service" ∧
    IsConfigUpToDate emptyCluster (demoService "ingress" ⟨some liveRef, none⟩)
        (.ConfigMap liveMeta) plainConfig =
      ⟨[], some (false,
        some ⟨"expose type ingress not supported. Valid types: \"service\""⟩)⟩ :=
  ⟨by decide, by decide, by decide,
    (IsConfigUpToDate_unsupported emptyCluster (demoService "ingress" ⟨some liveRef, none⟩)
      (.ConfigMap liveMeta) plainConfig (by decide) (by decide) (by decide)).1⟩

/-- C4: on an input where `IsConfigUpToDate` returns `(true, nil)`, giving the
recorded reference of the live variant another resourceVersion, all else
kept, makes it return `(false, nil)`; and whenever the recorded reference does
not match the live config the result is `(false, nil)` with no external call,
whatever the expose configuration, the cluster and the rendered configuration
are. -/
theorem IsConfigUpToDate_resourceVersion (d : Env ρ) (svc : SpinnakerService ρ)
    (config : RuntimeObject) (hc : SpinnakerConfig) :
    (∀ cm r v, config = .ConfigMap cm → svc.Status.HalConfig.ConfigMap = some r →
      v ≠ r.ResourceVersion →
      (IsConfigUpToDate d svc config hc).ret = some (true, none) →
      IsConfigUpToDate d
        { svc with Status := { svc.Status with HalConfig :=
          { svc.Status.HalConfig with ConfigMap := some { r with ResourceVersion := v } } } }
        config hc = ⟨[], some (false, none)⟩) ∧
    (∀ sec r v, config = .Secret sec → svc.Status.HalConfig.Secret = some r →
      v ≠ r.ResourceVersion →
      (IsConfigUpToDate d svc config hc).ret = some (true, none) →
      IsConfigUpToDate d
        { svc with Status := { svc.Status with HalConfig :=
          { svc.Status.HalConfig with Secret := some { r with ResourceVersion := v } } } }
        config hc = ⟨[], some (false, none)⟩) ∧
    (isHalconfigUpToDate svc config = false →
      ∀ (d2 : Env ρ) (hc2 : SpinnakerConfig),
        IsConfigUpToDate d2 svc config hc2 = ⟨[], some (false, none)⟩) := by
  refine ⟨?_, ?_, ?_⟩
  · intro cm r v hcfg hr hv hret
    have hup : isHalconfigUpToDate svc config = true := by
      by_contra hne
      have hf : isHalconfigUpToDate svc config = false := by simpa using hne
      rw [IsConfigUpToDate_of_stale d svc config hc hf] at hret
      simp at hret
    subst hcfg
    simp [isHalconfigUpToDate, hr] at hup
    apply IsConfigUpToDate_of_stale
    simp only [isHalconfigUpToDate]
    simp only [Bool.and_eq_false_imp, Bool.and_eq_true, beq_iff_eq, beq_eq_false_iff_ne]
    intro _
    rw [← hup.2]
    exact hv
  · intro sec r v hcfg hr hv hret
    have hup : isHalconfigUpToDate svc config = true := by
      by_contra hne
      have hf : isHalconfigUpToDate svc config = false := by simpa using hne
      rw [IsConfigUpToDate_of_stale d svc config hc hf] at hret
      simp at hret
    subst hcfg
    simp [isHalconfigUpToDate, hr] at hup
    apply IsConfigUpToDate_of_stale
    simp only [isHalconfigUpToDate]
    simp only [Bool.and_eq_false_imp, Bool.and_eq_true, beq_iff_eq, beq_eq_false_iff_ne]
    intro _
    rw [← hup.2]
    exact hv
  · intro h d2 hc2
    exact IsConfigUpToDate_of_stale d2 svc config hc2 h

/-- Witness of C4: the live ConfigMap (then the live Secret) recorded at
version `7` and re-recorded at version `8`, and a service with nothing
recorded. -/
theorem IsConfigUpToDate_resourceVersion_witness :
    IsConfigUpToDate emptyCluster (demoService "" ⟨some staleRef, none⟩) (.ConfigMap liveMeta)
      plainConfig = ⟨[], some (false, none)⟩ ∧
    IsConfigUpToDate emptyCluster (demoService "" ⟨none, some staleRef⟩) (.Secret liveMeta)
      plainConfig = ⟨[], some (false, none)⟩ ∧
    IsConfigUpToDate emptyCluster (demoService "service" ⟨none, none⟩) (.ConfigMap liveMeta)
      plainConfig = ⟨[], some (false, none)⟩ :=
  ⟨(IsConfigUpToDate_resourceVersion emptyCluster (demoService "" ⟨some liveRef, none⟩)
      (.ConfigMap liveMeta) plainConfig).1 liveMeta liveRef "8" rfl rfl (by decide) (by decide),
   (IsConfigUpToDate_resourceVersion emptyCluster (demoService "" ⟨none, some liveRef⟩)
      (.Secret liveMeta) plainConfig).2.1 liveMeta liveRef "8" rfl rfl (by decide) (by decide),
   (IsConfigUpToDate_resourceVersion emptyCluster (demoService "service" ⟨none, none⟩)
      (.ConfigMap liveMeta) plainConfig).2.2 (by decide) emptyCluster plainConfig⟩

/-- C5: a reference with the name, namespace and resourceVersion of the live
config but recorded under the other variant (Secret for a live ConfigMap,
ConfigMap for a live Secret) makes `IsConfigUpToDate` return `(false, nil)`. -/
theorem IsConfigUpToDate_other_variant (d : Env ρ) (svc : SpinnakerService ρ)
    (m : ObjectMeta) (hc : SpinnakerConfig) :
    IsConfigUpToDate d
        { svc with Status := { svc.Status with HalConfig :=
          { ConfigMap := none,
            Secret := some { Name := m.Name, Namespace := m.Namespace,
                             ResourceVersion := m.ResourceVersion } } } }
        (.ConfigMap m) hc = ⟨[], some (false, none)⟩ ∧
    IsConfigUpToDate d
        { svc with Status := { svc.Status with HalConfig :=
          { ConfigMap := some { Name := m.Name, Namespace := m.Namespace,
                                ResourceVersion := m.ResourceVersion },
            Secret := none } } }
        (.Secret m) hc = ⟨[], some (false, none)⟩ := by
  constructor <;> exact IsConfigUpToDate_of_stale _ _ _ _ rfl

/-- The verdict of `exposeServiceTypeUpToDate` as one comparison. -/
theorem exposeServiceTypeUpToDate_eq (serviceName shortName : String)
    (spinSvc : SpinnakerService ρ) (svc : Service)
    (hname : sliceFrom serviceName "spin-".utf8ByteSize = some shortName) :
    exposeServiceTypeUpToDate serviceName spinSvc svc =
      some (decide (svc.Spec.Type_ = desiredExposeType spinSvc shortName), none) := by
  cases ho : spinSvc.Spec.Expose.Service.Overrides.index shortName with
  | none =>
    by_cases h : svc.Spec.Type_ = spinSvc.Spec.Expose.Service.Type_ <;>
      simp [exposeServiceTypeUpToDate, hname, desiredExposeType, ho, h]
  | some c =>
    by_cases hc : c.Type_ = ""
    · by_cases h : svc.Spec.Type_ = spinSvc.Spec.Expose.Service.Type_ <;>
        simp [exposeServiceTypeUpToDate, hname, desiredExposeType, ho, hc, h]
    · by_cases h : svc.Spec.Type_ = c.Type_ <;>
        simp [exposeServiceTypeUpToDate, hname, desiredExposeType, ho, hc, h]

/-- C7: `exposeServiceTypeUpToDate` returns `true` exactly when the observed
service type is, letter for letter, the desired exposure type: the override
for the short name of the service when there is one with a non-empty type, the
global default of the spec otherwise.  It never returns an error. -/
theorem exposeServiceTypeUpToDate_desired (serviceName shortName : String)
    (spinSvc : SpinnakerService ρ) (svc : Service)
    (hname : sliceFrom serviceName "spin-".utf8ByteSize = some shortName) :
    exposeServiceTypeUpToDate serviceName spinSvc svc =
      some (decide (svc.Spec.Type_ = desiredExposeType spinSvc shortName), none) :=
  exposeServiceTypeUpToDate_eq serviceName shortName spinSvc svc hname

/-- Witness of C7: an override `LoadBalancer` for `deck` against an observed
`ClusterIP` gives `false`; no override and the default `ClusterIP` against an
observed `ClusterIP` gives `true`; an override with an empty type falls back
to the default; the comparison tells `clusterip` from `ClusterIP`. -/
theorem exposeServiceTypeUpToDate_desired_witness :
    exposeServiceTypeUpToDate "spin-deck"
        (exposedService (some [("deck", ⟨"LoadBalancer", none⟩)]))
        (observedService "spin-deck" "ClusterIP" none) = some (false, none) ∧
    exposeServiceTypeUpToDate "spin-deck" (exposedService none)
        (observedService "spin-deck" "ClusterIP" none) = some (true, none) ∧
    exposeServiceTypeUpToDate "spin-deck" (exposedService (some [("deck", ⟨"", none⟩)]))
        (observedService "spin-deck" "ClusterIP" none) = some (true, none) ∧
    exposeServiceTypeUpToDate "spin-deck" (exposedService none)
        (observedService "spin-deck" "clusterip" none) = some (false, none) :=
  ⟨exposeServiceTypeUpToDate_desired "spin-deck" "deck"
      (exposedService (some [("deck", ⟨"LoadBalancer", none⟩)]))
      (observedService "spin-deck" "ClusterIP" none) (by decide),
   exposeServiceTypeUpToDate_desired "spin-deck" "deck" (exposedService none)
      (observedService "spin-deck" "ClusterIP" none) (by decide),
   exposeServiceTypeUpToDate_desired "spin-deck" "deck"
      (exposedService (some [("deck", ⟨"", none⟩)]))
      (observedService "spin-deck" "ClusterIP" none) (by decide),
   exposeServiceTypeUpToDate_desired "spin-deck" "deck" (exposedService none)
      (observedService "spin-deck" "clusterip" none) (by decide)⟩

/-- A key outside the keys of a map has no binding. -/
theorem GoMap.index_of_not_mem_keys {β : Type} (m : GoMap β) (k : String)
    (h : k ∉ m.keys) : m.index k = none := by
  cases m with
  | none => rfl
  | some bs => exact (GoMap.index_eq_none_iff bs k).2 h

/-- Two maps have the same entries exactly when every key has the same binding
in both. -/
theorem sameEntries_iff (a b : GoMap String) :
    sameEntries a b = true ↔ ∀ k, a.index k = b.index k := by
  simp only [sameEntries, List.all_eq_true, List.mem_append, beq_iff_eq]
  constructor
  · intro h k
    by_cases hk : k ∈ a.keys ∨ k ∈ b.keys
    · exact h k hk
    · rw [GoMap.index_of_not_mem_keys a k (fun h1 => hk (Or.inl h1)),
        GoMap.index_of_not_mem_keys b k (fun h2 => hk (Or.inr h2))]
  · intro h k _
    exact h k

/-- Apart from a nil map against a non-nil one, `isExposeServiceUpToDate` does
what its four checks say.  When no lookup it makes fails and the observed and
the expected annotation maps are both nil or both not, it returns
`(true, nil)` exactly when the observed service exists, its type is the
desired exposure type, its annotations have the same entries as the expected
ones, and it is not the case that the status URL (the UI URL for `spin-deck`,
the API URL otherwise) is empty while the load balancer has an address; it
returns `(false, nil)` in every other case, and for an absent service after
the service lookup alone. -/
theorem isExposeServiceUpToDate_checks (d : Env ρ) (spinSvc : SpinnakerService ρ)
    (serviceName shortName : String) (hcSSLEnabled : Bool)
    (hname : sliceFrom serviceName "spin-".utf8ByteSize = some shortName)
    (hnofail : ∀ c ∈ (isExposeServiceUpToDate d spinSvc serviceName hcSSLEnabled).calls,
      ∀ e, lookupFailedWith d e c = false)
    (hnil : ∀ svc, d.GetService serviceName spinSvc.ObjectMeta.Namespace = .ok (some svc) →
      svc.ObjectMeta.Annotations.isNil =
        (d.GetAggregatedAnnotations spinSvc shortName).isNil) :
    ((isExposeServiceUpToDate d spinSvc serviceName hcSSLEnabled).ret = some (true, none) ↔
      ∃ svc, d.GetService serviceName spinSvc.ObjectMeta.Namespace = .ok (some svc) ∧
        svc.Spec.Type_ = desiredExposeType spinSvc shortName ∧
        sameEntries svc.ObjectMeta.Annotations
          (d.GetAggregatedAnnotations spinSvc shortName) = true ∧
        ¬ ((if serviceName = "spin-deck" then spinSvc.Status.UIUrl
              else spinSvc.Status.APIUrl) = "" ∧
            ∃ lbUrl, d.FindLoadBalancerUrl serviceName spinSvc.ObjectMeta.Namespace
              hcSSLEnabled = .ok lbUrl ∧ lbUrl ≠ "")) ∧
    ((isExposeServiceUpToDate d spinSvc serviceName hcSSLEnabled).ret = some (true, none) ∨
      (isExposeServiceUpToDate d spinSvc serviceName hcSSLEnabled).ret = some (false, none)) ∧
    (d.GetService serviceName spinSvc.ObjectMeta.Namespace = .ok none →
      isExposeServiceUpToDate d spinSvc serviceName hcSSLEnabled =
        ⟨[.GetService serviceName spinSvc.ObjectMeta.Namespace], some (false, none)⟩) := by
  have hurl : statusUrl spinSvc serviceName =
      (if serviceName = "spin-deck" then spinSvc.Status.UIUrl else spinSvc.Status.APIUrl) := by
    by_cases hn : serviceName = "spin-deck" <;> simp [statusUrl, hn]
  rw [← hurl]
  cases hget : d.GetService serviceName spinSvc.ObjectMeta.Namespace with
  | error e =>
    have := hnofail (.GetService serviceName spinSvc.ObjectMeta.Namespace)
      (by simp [isExposeServiceUpToDate, hget]) e
    simp [lookupFailedWith, hget] at this
  | ok osvc =>
    cases osvc with
    | none => simp [isExposeServiceUpToDate, hget]
    | some svc =>
      have ht := exposeServiceTypeUpToDate_eq serviceName shortName spinSvc svc hname
      have hsame : DeepEqual svc.ObjectMeta.Annotations
          (d.GetAggregatedAnnotations spinSvc shortName) = true ↔
          sameEntries svc.ObjectMeta.Annotations
            (d.GetAggregatedAnnotations spinSvc shortName) = true := by
        rw [DeepEqual_iff, sameEntries_iff]
        exact ⟨fun h => h.2, fun h => ⟨hnil svc hget, h⟩⟩
      by_cases h1 : svc.Spec.Type_ = desiredExposeType spinSvc shortName
      · by_cases h2 : DeepEqual svc.ObjectMeta.Annotations
            (d.GetAggregatedAnnotations spinSvc shortName) = true
        · have h2s := hsame.1 h2
          by_cases h3 : statusUrl spinSvc serviceName = ""
          · cases hlb : d.FindLoadBalancerUrl serviceName spinSvc.ObjectMeta.Namespace
                hcSSLEnabled with
            | error e =>
              have := hnofail
                (.FindLoadBalancerUrl serviceName spinSvc.ObjectMeta.Namespace hcSSLEnabled)
                (by simp [isExposeServiceUpToDate, hget, ht, hname, hlb, h1, h2, h3]) e
              simp [lookupFailedWith, hlb] at this
            | ok lbUrl =>
              by_cases h4 : lbUrl = ""
              · simp [isExposeServiceUpToDate, hget, ht, hname, hlb, h1, h2, h2s, h3, h4]
              · simp [isExposeServiceUpToDate, hget, ht, hname, hlb, h1, h2, h2s, h3, h4]
          · simp [isExposeServiceUpToDate, hget, ht, hname, h1, h2, h2s, h3]
        · have h2s : ¬ sameEntries svc.ObjectMeta.Annotations
              (d.GetAggregatedAnnotations spinSvc shortName) = true := fun h => h2 (hsame.2 h)
          simp [isExposeServiceUpToDate, hget, ht, hname, h1, h2, h2s]
      · simp [isExposeServiceUpToDate, hget, ht, h1]

/-- C6 fails on the code, by the defect of C8.  For `spin-deck` the observed
service exists, its type `ClusterIP` is the desired exposure type, its
annotation map (nil) has the same entries as the expected aggregated map
(empty, not nil), the status URL is empty and the load balancer has no
address: all four checks pass and no lookup fails, yet
`isExposeServiceUpToDate` returns `(false, nil)`, and does so after the service
lookup alone. -/
theorem isExposeServiceUpToDate_four_checks_pass_yet_false :
    (clusterWith none (some [])).GetService "spin-deck"
        (exposedService none).ObjectMeta.Namespace =
      .ok (some (observedService "spin-deck" "ClusterIP" none)) ∧
    (observedService "spin-deck" "ClusterIP" none).Spec.Type_ =
      desiredExposeType (exposedService none) "deck" ∧
    sameEntries (observedService "spin-deck" "ClusterIP" none).ObjectMeta.Annotations
      ((clusterWith none (some [])).GetAggregatedAnnotations (exposedService none) "deck")
      = true ∧
    (exposedService none).Status.UIUrl = "" ∧
    (clusterWith none (some [])).FindLoadBalancerUrl "spin-deck"
        (exposedService none).ObjectMeta.Namespace false = .ok "" ∧
    isExposeServiceUpToDate (clusterWith none (some [])) (exposedService none)
        "spin-deck" false =
      ⟨[.GetService "spin-deck" "spin"], some (false, none)⟩ := by
  refine ⟨rfl, by decide, by decide, rfl, rfl, by decide⟩

/-- C9: once the service exists and its type and annotations have passed, a
non-empty status URL (the UI URL for `spin-deck`, the API URL for any other
service) gives `(true, nil)` with no load-balancer lookup; with an empty status
URL the load-balancer lookup is made and the result is `(false, nil)` when it
returns a non-empty address and `(true, nil)` when it returns the empty
string. -/
theorem isExposeServiceUpToDate_statusUrl (d : Env ρ) (spinSvc : SpinnakerService ρ)
    (serviceName shortName : String) (hcSSLEnabled : Bool) (svc : Service)
    (hget : d.GetService serviceName spinSvc.ObjectMeta.Namespace = .ok (some svc))
    (hname : sliceFrom serviceName "spin-".utf8ByteSize = some shortName)
    (htype : exposeServiceTypeUpToDate serviceName spinSvc svc = some (true, none))
    (hann : DeepEqual svc.ObjectMeta.Annotations
      (d.GetAggregatedAnnotations spinSvc shortName) = true) :
    ((if serviceName = "spin-deck" then spinSvc.Status.UIUrl else spinSvc.Status.APIUrl) ≠ "" →
      isExposeServiceUpToDate d spinSvc serviceName hcSSLEnabled =
        ⟨[.GetService serviceName spinSvc.ObjectMeta.Namespace], some (true, none)⟩) ∧
    ((if serviceName = "spin-deck" then spinSvc.Status.UIUrl else spinSvc.Status.APIUrl) = "" →
      ∀ lbUrl, d.FindLoadBalancerUrl serviceName spinSvc.ObjectMeta.Namespace hcSSLEnabled
          = .ok lbUrl →
        (lbUrl ≠ "" →
          isExposeServiceUpToDate d spinSvc serviceName hcSSLEnabled =
            ⟨[.GetService serviceName spinSvc.ObjectMeta.Namespace,
              .FindLoadBalancerUrl serviceName spinSvc.ObjectMeta.Namespace hcSSLEnabled],
             some (false, none)⟩) ∧
        (lbUrl = "" →
          isExposeServiceUpToDate d spinSvc serviceName hcSSLEnabled =
            ⟨[.GetService serviceName spinSvc.ObjectMeta.Namespace,
              .FindLoadBalancerUrl serviceName spinSvc.ObjectMeta.Namespace hcSSLEnabled],
             some (true, none)⟩)) := by
  have hurl : statusUrl spinSvc serviceName =
      (if serviceName = "spin-deck" then spinSvc.Status.UIUrl else spinSvc.Status.APIUrl) := by
    by_cases hn : serviceName = "spin-deck" <;> simp [statusUrl, hn]
  rw [← hurl]
  refine ⟨?_, ?_⟩
  · intro h
    simp [isExposeServiceUpToDate, hget, htype, hname, hann, h]
  · intro h lbUrl hlb
    refine ⟨?_, ?_⟩
    · intro hne
      simp [isExposeServiceUpToDate, hget, htype, hname, hann, h, hlb, hne]
    · intro he
      simp [isExposeServiceUpToDate, hget, htype, hname, hann, h, hlb, he]

/-- Witness of C9: with the UI URL recorded, `spin-deck` is up to date without
a load-balancer lookup, while `spin-gate`, whose API URL is empty, is not, the
load balancer having an address; with no address `spin-deck` is up to date. -/
theorem isExposeServiceUpToDate_statusUrl_witness :
    isExposeServiceUpToDate (readyCluster "lb.example") (exposedServiceAt "https://ui" "")
        "spin-deck" false =
      ⟨[.GetService "spin-deck" "spin"], some (true, none)⟩ ∧
    isExposeServiceUpToDate (readyCluster "lb.example") (exposedServiceAt "https://ui" "")
        "spin-gate" false =
      ⟨[.GetService "spin-gate" "spin", .FindLoadBalancerUrl "spin-gate" "spin" false],
        some (false, none)⟩ ∧
    isExposeServiceUpToDate (readyCluster "") (exposedServiceAt "" "") "spin-deck" true =
      ⟨[.GetService "spin-deck" "spin", .FindLoadBalancerUrl "spin-deck" "spin" true],
        some (true, none)⟩ :=
  ⟨(isExposeServiceUpToDate_statusUrl (readyCluster "lb.example")
      (exposedServiceAt "https://ui" "") "spin-deck" "deck" false
      (observedService "spin-deck" "ClusterIP" none) rfl (by decide) (by decide)
      (by decide)).1 (by decide),
   ((isExposeServiceUpToDate_statusUrl (readyCluster "lb.example")
      (exposedServiceAt "https://ui" "") "spin-gate" "gate" false
      (observedService "spin-gate" "ClusterIP" none) rfl (by decide) (by decide)
      (by decide)).2 (by decide) "lb.example" rfl).1 (by decide),
   ((isExposeServiceUpToDate_statusUrl (readyCluster "")
      (exposedServiceAt "" "") "spin-deck" "deck" true
      (observedService "spin-deck" "ClusterIP" none) rfl (by decide) (by decide)
      (by decide)).2 (by decide) "" rfl).2 rfl⟩

/-- C8 fails on the code: an observed service whose annotation map is nil and
an expected aggregated map that is empty but not nil have the same keys with
the same values (none), yet `reflect.DeepEqual` tells them apart and
`isExposeServiceUpToDate` reports drift; with the observed map empty and not
nil the same service is up to date.  On maps that are not nil the check does
what the claim says: insertion order is ignored and a missing entry is drift. -/
theorem isExposeServiceUpToDate_nil_annotations :
    (∀ k, GoMap.index (none : GoMap String) k = GoMap.index (some []) k) ∧
    DeepEqual none (some []) = false ∧
    isExposeServiceUpToDate (clusterWith none (some [])) (exposedService none)
        "spin-deck" false =
      ⟨[.GetService "spin-deck" "spin"], some (false, none)⟩ ∧
    isExposeServiceUpToDate (clusterWith (some []) (some [])) (exposedService none)
        "spin-deck" false =
      ⟨[.GetService "spin-deck" "spin", .FindLoadBalancerUrl "spin-deck" "spin" false],
        some (true, none)⟩ ∧
    DeepEqual (some [("a", "1"), ("b", "2")]) (some [("b", "2"), ("a", "1")]) = true ∧
    DeepEqual (some [("a", "1")]) (some [("a", "1"), ("b", "2")]) = false := by
  refine ⟨fun k => rfl, by decide, by decide, by decide, by decide, by decide⟩

/-- C10: `commitConfigToStatus` with a ConfigMap (a Secret) leaves in the
status exactly the ConfigMap (the Secret) reference with the name, namespace
and resourceVersion of the config and the other reference nil, whatever was
recorded; and whatever the config is, the UI URL, the API URL and all the
other status fields are the ones it found, so that no URL is ever cleared. -/
theorem commitConfigToStatus_status (d : Env ρ) (now : Time) (svc : SpinnakerService ρ)
    (status : SpinnakerServiceStatus ρ) (m : ObjectMeta) (config : RuntimeObject) :
    (commitConfigToStatus d now svc status (.ConfigMap m)).status.HalConfig =
      { ConfigMap := some { Name := m.Name, Namespace := m.Namespace,
                            ResourceVersion := m.ResourceVersion },
        Secret := none } ∧
    (commitConfigToStatus d now svc status (.Secret m)).status.HalConfig =
      { ConfigMap := none,
        Secret := some { Name := m.Name, Namespace := m.Namespace,
                         ResourceVersion := m.ResourceVersion } } ∧
    (commitConfigToStatus d now svc status config).status.UIUrl = status.UIUrl ∧
    (commitConfigToStatus d now svc status config).status.APIUrl = status.APIUrl ∧
    (commitConfigToStatus d now svc status config).status.rest = status.rest ∧
    (commitConfigToStatus d now svc status config).status =
      { status with HalConfig := (commitConfigToStatus d now svc status config).status.HalConfig,
                    LastConfigurationTime := now } :=
  ⟨rfl, rfl, rfl, rfl, rfl, rfl⟩

/-- C11 as stated fails: two calls in a row, a ConfigMap first and a Secret
second, both made at the clock reading `5`, leave the same timestamp. -/
theorem commitConfigToStatus_same_instant :
    RuntimeObject.ConfigMap liveMeta ≠ RuntimeObject.Secret liveMeta ∧
    ¬ ((commitConfigToStatus emptyCluster 5 (demoService "" ⟨none, none⟩) emptyStatus
          (.ConfigMap liveMeta)).status.LastConfigurationTime <
        (commitConfigToStatus emptyCluster 5 (demoService "" ⟨none, none⟩)
          (commitConfigToStatus emptyCluster 5 (demoService "" ⟨none, none⟩) emptyStatus
            (.ConfigMap liveMeta)).status
          (.Secret liveMeta)).status.LastConfigurationTime) := by
  decide

/-- C11, amended: of two calls in a row, the second on the status the first
left, each leaves as timestamp the clock reading of its own call, so the
second timestamp is greater than the first exactly when the clock has advanced
between the calls; and each record holds the reference of the variant of the
config of its call, ConfigMap or Secret. -/
theorem commitConfigToStatus_sequential (d1 d2 : Env ρ) (now1 now2 : Time)
    (svc1 svc2 : SpinnakerService ρ) (status : SpinnakerServiceStatus ρ)
    (config1 config2 : RuntimeObject)
    (h1 : config1 ≠ .Other) (h2 : config2 ≠ .Other) :
    (commitConfigToStatus d1 now1 svc1 status config1).status.LastConfigurationTime = now1 ∧
    (commitConfigToStatus d2 now2 svc2
      (commitConfigToStatus d1 now1 svc1 status config1).status
      config2).status.LastConfigurationTime = now2 ∧
    ((commitConfigToStatus d1 now1 svc1 status config1).status.LastConfigurationTime <
        (commitConfigToStatus d2 now2 svc2
          (commitConfigToStatus d1 now1 svc1 status config1).status
          config2).status.LastConfigurationTime ↔ now1 < now2) ∧
    recordsVariantOf (commitConfigToStatus d1 now1 svc1 status config1).status.HalConfig
      config1 = true ∧
    recordsVariantOf
      (commitConfigToStatus d2 now2 svc2
        (commitConfigToStatus d1 now1 svc1 status config1).status config2).status.HalConfig
      config2 = true := by
  refine ⟨rfl, rfl, Iff.rfl, ?_, ?_⟩
  · cases config1 with
    | ConfigMap m => rfl
    | Secret m => rfl
    | Other => exact absurd rfl h1
  · cases config2 with
    | ConfigMap m => rfl
    | Secret m => rfl
    | Other => exact absurd rfl h2

/-- Witness of C11, amended: a ConfigMap committed at `5`, then a Secret at
`6`. -/
theorem commitConfigToStatus_sequential_witness :
    RuntimeObject.ConfigMap liveMeta ≠ .Other ∧ RuntimeObject.Secret liveMeta ≠ .Other ∧
    (commitConfigToStatus emptyCluster 5 (demoService "" ⟨none, none⟩) emptyStatus
        (.ConfigMap liveMeta)).status.LastConfigurationTime <
      (commitConfigToStatus emptyCluster 6 (demoService "" ⟨none, none⟩)
        (commitConfigToStatus emptyCluster 5 (demoService "" ⟨none, none⟩) emptyStatus
          (.ConfigMap liveMeta)).status
        (.Secret liveMeta)).status.LastConfigurationTime :=
  ⟨by decide, by decide,
    (commitConfigToStatus_sequential emptyCluster emptyCluster 5 6
      (demoService "" ⟨none, none⟩) (demoService "" ⟨none, none⟩) emptyStatus
      (.ConfigMap liveMeta) (.Secret liveMeta) (by decide) (by decide)).2.2.1.2 (by decide)⟩

/-- C14: `commitConfigToStatus` makes one external call and no more, whatever
that call answers: the status update of a copy of the given service, with its
metadata and spec, whose status is the newly built one, namely the given
status with the reference of the config (the ConfigMap reference alone for a
ConfigMap, the Secret reference alone for a Secret, the references as found
otherwise) and the clock reading as timestamp.  What it returns is the answer
of that call, `nil` exactly when the call succeeds and its error otherwise. -/
theorem commitConfigToStatus_persists_once (d : Env ρ) (now : Time) (svc : SpinnakerService ρ)
    (status : SpinnakerServiceStatus ρ) (config : RuntimeObject) (m : ObjectMeta) :
    (commitConfigToStatus d now svc status config).calls =
      [.StatusUpdate
        { ObjectMeta := svc.ObjectMeta, Spec := svc.Spec,
          Status := (commitConfigToStatus d now svc status config).status }] ∧
    (commitConfigToStatus d now svc status config).err =
      d.StatusUpdate
        { ObjectMeta := svc.ObjectMeta, Spec := svc.Spec,
          Status := (commitConfigToStatus d now svc status config).status } ∧
    ((commitConfigToStatus d now svc status config).err = none ↔
      d.StatusUpdate
        { svc with Status := (commitConfigToStatus d now svc status config).status } = none) ∧
    (commitConfigToStatus d now svc status (.ConfigMap m)).calls =
      [.StatusUpdate
        { ObjectMeta := svc.ObjectMeta, Spec := svc.Spec,
          Status :=
            { LastConfigurationTime := now,
              HalConfig :=
                { ConfigMap := some { Name := m.Name, Namespace := m.Namespace,
                                      ResourceVersion := m.ResourceVersion },
                  Secret := none },
              UIUrl := status.UIUrl, APIUrl := status.APIUrl, rest := status.rest } }] ∧
    (commitConfigToStatus d now svc status (.ConfigMap m)).err =
      d.StatusUpdate
        { ObjectMeta := svc.ObjectMeta, Spec := svc.Spec,
          Status :=
            { LastConfigurationTime := now,
              HalConfig :=
                { ConfigMap := some { Name := m.Name, Namespace := m.Namespace,
                                      ResourceVersion := m.ResourceVersion },
                  Secret := none },
              UIUrl := status.UIUrl, APIUrl := status.APIUrl, rest := status.rest } } ∧
    (commitConfigToStatus d now svc status (.Secret m)).calls =
      [.StatusUpdate
        { ObjectMeta := svc.ObjectMeta, Spec := svc.Spec,
          Status :=
            { LastConfigurationTime := now,
              HalConfig :=
                { ConfigMap := none,
                  Secret := some { Name := m.Name, Namespace := m.Namespace,
                                   ResourceVersion := m.ResourceVersion } },
              UIUrl := status.UIUrl, APIUrl := status.APIUrl, rest := status.rest } }] ∧
    (commitConfigToStatus d now svc status (.Secret m)).err =
      d.StatusUpdate
        { ObjectMeta := svc.ObjectMeta, Spec := svc.Spec,
          Status :=
            { LastConfigurationTime := now,
              HalConfig :=
                { ConfigMap := none,
                  Secret := some { Name := m.Name, Namespace := m.Namespace,
                                   ResourceVersion := m.ResourceVersion } },
              UIUrl := status.UIUrl, APIUrl := status.APIUrl, rest := status.rest } } ∧
    (commitConfigToStatus d now svc status .Other).calls =
      [.StatusUpdate
        { ObjectMeta := svc.ObjectMeta, Spec := svc.Spec,
          Status :=
            { LastConfigurationTime := now, HalConfig := status.HalConfig,
              UIUrl := status.UIUrl, APIUrl := status.APIUrl, rest := status.rest } }] ∧
    (commitConfigToStatus d now svc status .Other).err =
      d.StatusUpdate
        { ObjectMeta := svc.ObjectMeta, Spec := svc.Spec,
          Status :=
            { LastConfigurationTime := now, HalConfig := status.HalConfig,
              UIUrl := status.UIUrl, APIUrl := status.APIUrl, rest := status.rest } } :=
  ⟨rfl, rfl, Iff.rfl, rfl, rfl, rfl, rfl, rfl, rfl⟩

/-- C15 as stated fails: the update being rejected, the status record handed
in, with nothing recorded and timestamp `0`, is left with the ConfigMap
reference and the timestamp `5`. -/
theorem commitConfigToStatus_failed_keeps_rewrite :
    (commitConfigToStatus brokenCluster 5 (demoService "" ⟨none, none⟩) emptyStatus
      (.ConfigMap liveMeta)).err = some ⟨"conflict"⟩ ∧
    (commitConfigToStatus brokenCluster 5 (demoService "" ⟨none, none⟩) emptyStatus
      (.ConfigMap liveMeta)).status ≠ emptyStatus ∧
    (commitConfigToStatus brokenCluster 5 (demoService "" ⟨none, none⟩) emptyStatus
      (.ConfigMap liveMeta)).status.HalConfig = ⟨some liveRef, none⟩ ∧
    (commitConfigToStatus brokenCluster 5 (demoService "" ⟨none, none⟩) emptyStatus
      (.ConfigMap liveMeta)).status.LastConfigurationTime = 5 := by
  decide

/-- C15, amended: `commitConfigToStatus` rewrites the status record handed in
before the update is sent and does not restore it: whatever the update
answers, the record is left with the new config reference (the ConfigMap
reference alone for a ConfigMap, the Secret reference alone for a Secret) and
the clock reading as timestamp, the same after a failed update as after a
successful one; and the one external call it makes, failed or not, is the
single status update carrying that record. -/
theorem commitConfigToStatus_rewrite_regardless (d d2 : Env ρ) (now : Time)
    (svc : SpinnakerService ρ) (status : SpinnakerServiceStatus ρ) (config : RuntimeObject)
    (m : ObjectMeta) :
    (commitConfigToStatus d now svc status config).status =
      { status with HalConfig := commitHalConfig status.HalConfig config,
                    LastConfigurationTime := now } ∧
    (commitConfigToStatus d now svc status config).status =
      (commitConfigToStatus d2 now svc status config).status ∧
    (commitConfigToStatus d now svc status (.ConfigMap m)).status =
      { LastConfigurationTime := now,
        HalConfig :=
          { ConfigMap := some { Name := m.Name, Namespace := m.Namespace,
                                ResourceVersion := m.ResourceVersion },
            Secret := none },
        UIUrl := status.UIUrl, APIUrl := status.APIUrl, rest := status.rest } ∧
    (commitConfigToStatus d now svc status (.Secret m)).status =
      { LastConfigurationTime := now,
        HalConfig :=
          { ConfigMap := none,
            Secret := some { Name := m.Name, Namespace := m.Namespace,
                             ResourceVersion := m.ResourceVersion } },
        UIUrl := status.UIUrl, APIUrl := status.APIUrl, rest := status.rest } ∧
    (commitConfigToStatus d now svc status config).calls =
      [.StatusUpdate
        { ObjectMeta := svc.ObjectMeta, Spec := svc.Spec,
          Status :=
            { LastConfigurationTime := now,
              HalConfig := (commitConfigToStatus d now svc status config).status.HalConfig,
              UIUrl := status.UIUrl, APIUrl := status.APIUrl, rest := status.rest } }] ∧
    (commitConfigToStatus d now svc status config).calls.length = 1 ∧
    (commitConfigToStatus d now svc status config).err =
      d.StatusUpdate
        { ObjectMeta := svc.ObjectMeta, Spec := svc.Spec,
          Status := (commitConfigToStatus d now svc status config).status } :=
  ⟨rfl, rfl, rfl, rfl, rfl, rfl, rfl⟩

/-- C17: for every expose type whose lowercase form is neither empty nor
`service`, `isExposeConfigUpToDate` returns `false` with an error that is not
nil and makes no external call. -/
theorem isExposeConfigUpToDate_unsupported (d : Env ρ) (svc : SpinnakerService ρ)
    (hc : SpinnakerConfig)
    (hnone : ToLower d.lower svc.Spec.Expose.Type_ ≠ "")
    (hservice : ToLower d.lower svc.Spec.Expose.Type_ ≠ "service") :
    isExposeConfigUpToDate d svc hc =
      ⟨[], some (false, some ⟨"expose type " ++ svc.Spec.Expose.Type_ ++
        " not supported. Valid types: \"service\""⟩)⟩ := by
  simp [isExposeConfigUpToDate, hnone, hservice]

/-- Witness of C17: the expose type `ingress` against a cluster that cannot be
reached and a configuration that cannot be read. -/
theorem isExposeConfigUpToDate_unsupported_witness :
    ToLower brokenCluster.lower (demoService "ingress" ⟨none, none⟩).Spec.Expose.Type_ ≠ "" ∧
    ToLower brokenCluster.lower (demoService "ingress" ⟨none, none⟩).Spec.Expose.Type_
      ≠ "service" ∧
    isExposeConfigUpToDate brokenCluster (demoService "ingress" ⟨none, none⟩)
        unreadableConfig =
      ⟨[], some (false,
        some ⟨"expose type ingress not supported. Valid types: \"service\""⟩)⟩ :=
  ⟨by decide, by decide,
    isExposeConfigUpToDate_unsupported brokenCluster (demoService "ingress" ⟨none, none⟩)
      unreadableConfig (by decide) (by decide)⟩

/-- C18: after `commitConfigToStatus` has rewritten the status with a
ConfigMap or a Secret, `isHalconfigUpToDate` is true of that config on every
service carrying the resulting status, the persisted copy included. -/
theorem isHalconfigUpToDate_after_commit (d : Env ρ) (now : Time)
    (svc inst : SpinnakerService ρ) (status : SpinnakerServiceStatus ρ) (m : ObjectMeta) :
    isHalconfigUpToDate
      { inst with Status := (commitConfigToStatus d now svc status (.ConfigMap m)).status }
      (.ConfigMap m) = true ∧
    isHalconfigUpToDate
      { inst with Status := (commitConfigToStatus d now svc status (.Secret m)).status }
      (.Secret m) = true ∧
    (commitConfigToStatus d now svc status (.ConfigMap m)).calls.all
      (fun c => match c with
        | .StatusUpdate obj => isHalconfigUpToDate obj (.ConfigMap m)
        | _ => false) = true ∧
    (commitConfigToStatus d now svc status (.Secret m)).calls.all
      (fun c => match c with
        | .StatusUpdate obj => isHalconfigUpToDate obj (.Secret m)
        | _ => false) = true := by
  simp [commitConfigToStatus, commitHalConfig, isHalconfigUpToDate]

/-- C20: with a config that is neither a ConfigMap nor a Secret,
`commitConfigToStatus` leaves the recorded references as they were, sets the
timestamp to the clock reading and sends the status update all the same; and
`isHalconfigUpToDate` is false of such a config whatever is recorded. -/
theorem commitConfigToStatus_other (d : Env ρ) (now : Time) (svc inst : SpinnakerService ρ)
    (status : SpinnakerServiceStatus ρ) :
    (commitConfigToStatus d now svc status .Other).status.HalConfig = status.HalConfig ∧
    (commitConfigToStatus d now svc status .Other).status.LastConfigurationTime = now ∧
    (commitConfigToStatus d now svc status .Other).calls =
      [.StatusUpdate { svc with Status := { status with LastConfigurationTime := now } }] ∧
    (commitConfigToStatus d now svc status .Other).err =
      d.StatusUpdate { svc with Status := { status with LastConfigurationTime := now } } ∧
    isHalconfigUpToDate inst .Other = false :=
  ⟨rfl, rfl, rfl, rfl, rfl⟩

/-- The fallback of the code on a failing property lookup is the value the
absorbing configuration answers. -/
theorem sslEnabledOr_absorbFailures (hc : SpinnakerConfig) (prop : String) (dflt : Bool) :
    sslEnabledOr ((absorbFailures hc).GetHalConfigPropBool prop dflt) =
      sslEnabledOr (hc.GetHalConfigPropBool prop dflt) := by
  cases h : hc.GetHalConfigPropBool prop dflt <;> simp [absorbFailures, sslEnabledOr, h]

/-- Every call of `isExposeServiceUpToDate` names the service it checks. -/
theorem isExposeServiceUpToDate_calls_named (d : Env ρ) (spinSvc : SpinnakerService ρ)
    (serviceName : String) (hcSSLEnabled : Bool) :
    ∀ c ∈ (isExposeServiceUpToDate d spinSvc serviceName hcSSLEnabled).calls,
      callNames serviceName c = true := by
  intro c hc
  generalize hr : isExposeServiceUpToDate d spinSvc serviceName hcSSLEnabled = r at hc
  unfold isExposeServiceUpToDate at hr
  simp only at hr
  repeat' split at hr
  all_goals
    subst hr
    simp at hc
    rcases hc with rfl | rfl <;> simp [callNames]

/-- A failed lookup among the calls of `isExposeServiceUpToDate` is what it
returns. -/
theorem isExposeServiceUpToDate_failed_lookup (d : Env ρ) (spinSvc : SpinnakerService ρ)
    (serviceName : String) (hcSSLEnabled : Bool) (e : GoError)
    (h : ∃ c ∈ (isExposeServiceUpToDate d spinSvc serviceName hcSSLEnabled).calls,
      lookupFailedWith d e c = true) :
    (isExposeServiceUpToDate d spinSvc serviceName hcSSLEnabled).ret =
      some (false, some e) := by
  obtain ⟨c, hc, hf⟩ := h
  generalize hr : isExposeServiceUpToDate d spinSvc serviceName hcSSLEnabled = r at hc ⊢
  unfold isExposeServiceUpToDate at hr
  simp only at hr
  repeat' split at hr
  all_goals
    subst hr
    simp at hc
    rcases hc with rfl | rfl <;> simp_all [lookupFailedWith]

/-- The run of `isExposeConfigUpToDate` in service mode, in terms of the two
service checks. -/
theorem isExposeConfigUpToDate_service_eq (d : Env ρ) (svc : SpinnakerService ρ)
    (hc : SpinnakerConfig) (hmode : ToLower d.lower svc.Spec.Expose.Type_ = "service") :
    isExposeConfigUpToDate d svc hc =
      match (deckCheck d svc hc).ret with
      | none => ⟨.GetHalConfigPropBool d.DeckSSLEnabledProp false :: (deckCheck d svc hc).calls,
          none⟩
      | some (upToDateDeck, err) =>
        if !upToDateDeck || err.isSome then
          ⟨.GetHalConfigPropBool d.DeckSSLEnabledProp false :: (deckCheck d svc hc).calls,
            some (false, err)⟩
        else
          match (gateCheck d svc hc).ret with
          | none =>
            ⟨(.GetHalConfigPropBool d.DeckSSLEnabledProp false :: (deckCheck d svc hc).calls) ++
              .GetHalConfigPropBool d.GateSSLEnabledProp false :: (gateCheck d svc hc).calls,
              none⟩
          | some (upToDateGate, err) =>
            if !upToDateGate || err.isSome then
              ⟨(.GetHalConfigPropBool d.DeckSSLEnabledProp false ::
                  (deckCheck d svc hc).calls) ++
                .GetHalConfigPropBool d.GateSSLEnabledProp false :: (gateCheck d svc hc).calls,
                some (false, err)⟩
            else
              ⟨(.GetHalConfigPropBool d.DeckSSLEnabledProp false ::
                  (deckCheck d svc hc).calls) ++
                .GetHalConfigPropBool d.GateSSLEnabledProp false :: (gateCheck d svc hc).calls,
                some (true, none)⟩ := by
  simp only [isExposeConfigUpToDate, hmode, deckCheck, gateCheck]
  rfl

/-- C13: a failing SSL property lookup is absorbed.  `isExposeConfigUpToDate`
runs as it does on the configuration in which each failing property lookup
answers `false` without error (same calls, same result); and when the lookup
for a service fails, that service is checked with `sslEnabled = false`. -/
theorem isExposeConfigUpToDate_absorbs_ssl_failure (d : Env ρ) (svc : SpinnakerService ρ)
    (hc : SpinnakerConfig) :
    isExposeConfigUpToDate d svc hc = isExposeConfigUpToDate d svc (absorbFailures hc) ∧
    (∀ e, hc.GetHalConfigPropBool d.DeckSSLEnabledProp false = .error e →
      deckCheck d svc hc = isExposeServiceUpToDate d svc "spin-deck" false) ∧
    (∀ e, hc.GetHalConfigPropBool d.GateSSLEnabledProp false = .error e →
      gateCheck d svc hc = isExposeServiceUpToDate d svc "spin-gate" false) := by
  refine ⟨?_, ?_, ?_⟩
  · simp only [isExposeConfigUpToDate, sslEnabledOr_absorbFailures]
  · intro e he
    simp [deckCheck, he, sslEnabledOr, DeckServiceName]
  · intro e he
    simp [gateCheck, he, sslEnabledOr, GateServiceName]

/-- Witness of C13: in service mode, with a configuration whose every lookup
fails and two services that exist without a load-balancer address, both
services are checked with `sslEnabled = false` and the verdict is
`(true, nil)`. -/
theorem isExposeConfigUpToDate_absorbs_ssl_failure_witness :
    deckCheck (readyCluster "") (exposedService none) unreadableConfig =
      isExposeServiceUpToDate (readyCluster "") (exposedService none) "spin-deck" false ∧
    gateCheck (readyCluster "") (exposedService none) unreadableConfig =
      isExposeServiceUpToDate (readyCluster "") (exposedService none) "spin-gate" false ∧
    isExposeConfigUpToDate (readyCluster "") (exposedService none) unreadableConfig =
      ⟨[.GetHalConfigPropBool "deck.ssl" false, .GetService "spin-deck" "spin",
        .FindLoadBalancerUrl "spin-deck" "spin" false,
        .GetHalConfigPropBool "gate.ssl" false, .GetService "spin-gate" "spin",
        .FindLoadBalancerUrl "spin-gate" "spin" false], some (true, none)⟩ :=
  ⟨(isExposeConfigUpToDate_absorbs_ssl_failure (readyCluster "") (exposedService none)
      unreadableConfig).2.1 ⟨"no such property"⟩ rfl,
   (isExposeConfigUpToDate_absorbs_ssl_failure (readyCluster "") (exposedService none)
      unreadableConfig).2.2 ⟨"no such property"⟩ rfl,
   by decide⟩

/-- C16: in service mode `isExposeConfigUpToDate` checks `spin-deck` first and
`spin-gate` second; it returns `(true, nil)` exactly when both checks return
`(true, nil)`; and when the check of `spin-deck` returns `false` or an error
the result is `false` with that error (or nil), after the calls of that check
alone, none of which names `spin-gate`. -/
theorem isExposeConfigUpToDate_service_order (d : Env ρ) (svc : SpinnakerService ρ)
    (hc : SpinnakerConfig) (hmode : ToLower d.lower svc.Spec.Expose.Type_ = "service") :
    ((isExposeConfigUpToDate d svc hc).ret = some (true, none) ↔
      (deckCheck d svc hc).ret = some (true, none) ∧
      (gateCheck d svc hc).ret = some (true, none)) ∧
    ((deckCheck d svc hc).ret = some (true, none) →
      (isExposeConfigUpToDate d svc hc).calls =
        (.GetHalConfigPropBool d.DeckSSLEnabledProp false :: (deckCheck d svc hc).calls) ++
          .GetHalConfigPropBool d.GateSSLEnabledProp false :: (gateCheck d svc hc).calls) ∧
    (∀ b err, (deckCheck d svc hc).ret = some (b, err) → (b = false ∨ err ≠ none) →
      isExposeConfigUpToDate d svc hc =
        ⟨.GetHalConfigPropBool d.DeckSSLEnabledProp false :: (deckCheck d svc hc).calls,
          some (false, err)⟩ ∧
      (isExposeConfigUpToDate d svc hc).calls.all (fun c => !callNames "spin-gate" c)
        = true) := by
  have hrun := isExposeConfigUpToDate_service_eq d svc hc hmode
  refine ⟨?_, ?_, ?_⟩
  · rw [hrun]
    cases hd : (deckCheck d svc hc).ret with
    | none => simp
    | some rd =>
      obtain ⟨b, err⟩ := rd
      cases b <;> cases err <;> simp
      cases hg : (gateCheck d svc hc).ret with
      | none => simp
      | some rg =>
        obtain ⟨b2, err2⟩ := rg
        cases b2 <;> cases err2 <;> simp
  · intro hd
    rw [hrun, hd]
    simp only [Bool.not_true, Option.isSome_none, Bool.or_self, Bool.false_eq_true, if_false]
    cases hg : (gateCheck d svc hc).ret with
    | none => rfl
    | some rg =>
      obtain ⟨b2, err2⟩ := rg
      by_cases hcnd : (!b2 || err2.isSome) = true <;> simp [hcnd]
  · intro b err hd hfail
    have hcnd : (!b || err.isSome) = true := by
      rcases hfail with rfl | herr
      · simp
      · cases err with
        | none => exact absurd rfl herr
        | some e => simp
    have heq : isExposeConfigUpToDate d svc hc =
        ⟨.GetHalConfigPropBool d.DeckSSLEnabledProp false :: (deckCheck d svc hc).calls,
          some (false, err)⟩ := by
      rw [hrun, hd]
      simp only [hcnd, if_true]
    refine ⟨heq, ?_⟩
    rw [heq]
    simp only [List.all_cons, callNames, Bool.not_false, Bool.true_and, List.all_eq_true]
    intro c hcmem
    have hn := isExposeServiceUpToDate_calls_named d svc DeckServiceName _ c hcmem
    cases c <;> simp_all [callNames, DeckServiceName]

/-- Witness of C16: with no service in the cluster the run stops after the
lookup of `spin-deck`; with both services up to date both are looked up,
`spin-deck` first. -/
theorem isExposeConfigUpToDate_service_order_witness :
    ToLower emptyCluster.lower (exposedService none).Spec.Expose.Type_ = "service" ∧
    isExposeConfigUpToDate emptyCluster (exposedService none) plainConfig =
      ⟨[.GetHalConfigPropBool "deck.ssl" false, .GetService "spin-deck" "spin"],
        some (false, none)⟩ ∧
    (isExposeConfigUpToDate (readyCluster "") (exposedService none) plainConfig).ret =
      some (true, none) ∧
    (isExposeConfigUpToDate (readyCluster "") (exposedService none) plainConfig).calls =
      [.GetHalConfigPropBool "deck.ssl" false, .GetService "spin-deck" "spin",
        .FindLoadBalancerUrl "spin-deck" "spin" false,
        .GetHalConfigPropBool "gate.ssl" false, .GetService "spin-gate" "spin",
        .FindLoadBalancerUrl "spin-gate" "spin" false] :=
  ⟨by decide,
   ((isExposeConfigUpToDate_service_order emptyCluster (exposedService none) plainConfig
      (by decide)).2.2 false none (by decide) (Or.inl rfl)).1,
   (isExposeConfigUpToDate_service_order (readyCluster "") (exposedService none) plainConfig
      (by decide)).1.2 ⟨by decide, by decide⟩,
   (isExposeConfigUpToDate_service_order (readyCluster "") (exposedService none) plainConfig
      (by decide)).2.1 (by decide)⟩

/-- A failed lookup among the calls of `isExposeConfigUpToDate` is what it
returns. -/
theorem isExposeConfigUpToDate_failed_lookup (d : Env ρ) (svc : SpinnakerService ρ)
    (hc : SpinnakerConfig) (e : GoError)
    (h : ∃ c ∈ (isExposeConfigUpToDate d svc hc).calls, lookupFailedWith d e c = true) :
    (isExposeConfigUpToDate d svc hc).ret = some (false, some e) := by
  by_cases hnone : ToLower d.lower svc.Spec.Expose.Type_ = ""
  · simp [isExposeConfigUpToDate, hnone] at h
  · by_cases hmode : ToLower d.lower svc.Spec.Expose.Type_ = "service"
    · have hdeck := isExposeServiceUpToDate_failed_lookup d svc DeckServiceName
        (sslEnabledOr (hc.GetHalConfigPropBool d.DeckSSLEnabledProp false)) e
      have hgate := isExposeServiceUpToDate_failed_lookup d svc GateServiceName
        (sslEnabledOr (hc.GetHalConfigPropBool d.GateSSLEnabledProp false)) e
      change (∃ c ∈ (deckCheck d svc hc).calls, _) → (deckCheck d svc hc).ret = _ at hdeck
      change (∃ c ∈ (gateCheck d svc hc).calls, _) → (gateCheck d svc hc).ret = _ at hgate
      obtain ⟨c, hcmem, hf⟩ := h
      rw [isExposeConfigUpToDate_service_eq d svc hc hmode] at hcmem ⊢
      cases hd : (deckCheck d svc hc).ret with
      | none =>
        rw [hd] at hcmem
        simp only [List.mem_cons] at hcmem
        rcases hcmem with rfl | hcmem
        · simp [lookupFailedWith] at hf
        · rw [hdeck ⟨c, hcmem, hf⟩] at hd
          simp at hd
      | some rd =>
        obtain ⟨b, err⟩ := rd
        rw [hd] at hcmem
        by_cases hcnd : (!b || err.isSome) = true
        · simp only [hcnd, if_true, List.mem_cons] at hcmem ⊢
          rcases hcmem with rfl | hcmem
          · simp [lookupFailedWith] at hf
          · rw [hdeck ⟨c, hcmem, hf⟩] at hd
            simp only [Option.some.injEq, Prod.mk.injEq] at hd
            rw [← hd.2]
        · simp only [hcnd] at hcmem ⊢
          have hmem : c ∈ (.GetHalConfigPropBool d.DeckSSLEnabledProp false ::
              (deckCheck d svc hc).calls) ++
              .GetHalConfigPropBool d.GateSSLEnabledProp false ::
                (gateCheck d svc hc).calls := by
            cases hg : (gateCheck d svc hc).ret with
            | none => simpa [hg] using hcmem
            | some rg =>
              obtain ⟨b2, err2⟩ := rg
              by_cases hcnd2 : (!b2 || err2.isSome) = true <;>
                simpa [hg, hcnd2] using hcmem
          simp only [List.mem_append, List.mem_cons] at hmem
          rcases hmem with (rfl | hmem) | rfl | hmem
          · simp [lookupFailedWith] at hf
          · rw [hdeck ⟨c, hmem, hf⟩] at hd
            simp only [Option.some.injEq, Prod.mk.injEq] at hd
            rw [← hd.1, ← hd.2] at hcnd
            simp at hcnd
          · simp [lookupFailedWith] at hf
          · rw [hgate ⟨c, hmem, hf⟩]
            simp
    · simp [isExposeConfigUpToDate, hnone, hmode] at h

/-- C12: when a live-service lookup or a load-balancer lookup made by
`IsConfigUpToDate` is answered with the error `e`, `IsConfigUpToDate` returns
`false` with that very error; the result is then neither `(false, nil)` nor
`(true, nil)`. -/
theorem IsConfigUpToDate_failed_lookup (d : Env ρ) (svc : SpinnakerService ρ)
    (config : RuntimeObject) (hc : SpinnakerConfig) (e : GoError)
    (h : ∃ c ∈ (IsConfigUpToDate d svc config hc).calls, lookupFailedWith d e c = true) :
    (IsConfigUpToDate d svc config hc).ret = some (false, some e) := by
  by_cases hup : isHalconfigUpToDate svc config = true
  · have hcalls : (IsConfigUpToDate d svc config hc).calls =
        (isExposeConfigUpToDate d svc hc).calls := by
      simp only [IsConfigUpToDate, hup]
      cases hr : (isExposeConfigUpToDate d svc hc).ret with
      | none => simp
      | some r =>
        obtain ⟨b, err⟩ := r
        cases b <;> cases err <;> simp
    rw [hcalls] at h
    have hret := isExposeConfigUpToDate_failed_lookup d svc hc e h
    simp [IsConfigUpToDate, hup, hret]
  · simp [IsConfigUpToDate, hup] at h

/-- Witness of C12: a cluster whose service lookup fails with `connection
refused`, and a cluster where only the load-balancer lookup of `spin-gate`
fails, with `timeout`, after `spin-deck` has passed. -/
theorem IsConfigUpToDate_failed_lookup_witness :
    IsConfigUpToDate brokenCluster (exposedService none) (.ConfigMap liveMeta) plainConfig =
      ⟨[.GetHalConfigPropBool "deck.ssl" false, .GetService "spin-deck" "spin"],
        some (false, some ⟨"connection refused"⟩)⟩ ∧
    (IsConfigUpToDate (gateLbDownCluster "") (exposedService none) (.ConfigMap liveMeta)
      plainConfig).ret = some (false, some ⟨"timeout"⟩) ∧
    (IsConfigUpToDate brokenCluster (exposedService none) (.ConfigMap liveMeta)
      plainConfig).ret = some (false, some ⟨"connection refused"⟩) :=
  ⟨by decide,
   IsConfigUpToDate_failed_lookup (gateLbDownCluster "") (exposedService none)
     (.ConfigMap liveMeta) plainConfig ⟨"timeout"⟩
     ⟨.FindLoadBalancerUrl "spin-gate" "spin" false, by decide, by decide⟩,
   IsConfigUpToDate_failed_lookup brokenCluster (exposedService none)
     (.ConfigMap liveMeta) plainConfig ⟨"connection refused"⟩
     ⟨.GetService "spin-deck" "spin", by decide, by decide⟩⟩

/-- The check of one service does not read the expose type. -/
theorem isExposeServiceUpToDate_withExposeType (d : Env ρ) (svc : SpinnakerService ρ)
    (t serviceName : String) (hcSSLEnabled : Bool)
    (hagg : ∀ name, d.GetAggregatedAnnotations (withExposeType svc t) name =
      d.GetAggregatedAnnotations svc name) :
    isExposeServiceUpToDate d (withExposeType svc t) serviceName hcSSLEnabled =
      isExposeServiceUpToDate d svc serviceName hcSSLEnabled := by
  simp only [isExposeServiceUpToDate, hagg]
  rfl

/-- C19 as stated fails: on the expose type `Ingress` the error names
`Ingress`, on its lowercase form it names `ingress`. -/
theorem isExposeConfigUpToDate_message_not_lowercased :
    isExposeConfigUpToDate emptyCluster (demoService "Ingress" ⟨none, none⟩) plainConfig ≠
      isExposeConfigUpToDate emptyCluster
        (withExposeType (demoService "Ingress" ⟨none, none⟩)
          (ToLower emptyCluster.lower "Ingress")) plainConfig ∧
    (isExposeConfigUpToDate emptyCluster (demoService "Ingress" ⟨none, none⟩) plainConfig).ret =
      some (false, some ⟨"expose type Ingress not supported. Valid types: \"service\""⟩) ∧
    (isExposeConfigUpToDate emptyCluster
        (withExposeType (demoService "Ingress" ⟨none, none⟩)
          (ToLower emptyCluster.lower "Ingress")) plainConfig).ret =
      some (false, some ⟨"expose type ingress not supported. Valid types: \"service\""⟩) := by
  decide

/-- C19, amended: `isExposeConfigUpToDate` chooses its branch by the lowercased
expose type.  On the service with the expose type replaced by its lowercase
form it makes the same calls and returns the same verdict, with an error in
the same cases; when the lowercase form is empty or `service` the whole result
is the same, so that a type equal to `service` up to letter case is handled as
`service`; and the lowercase form is empty exactly when the type is. -/
theorem isExposeConfigUpToDate_lowercase (d : Env ρ) (svc : SpinnakerService ρ)
    (hc : SpinnakerConfig)
    (hidem : ToLower d.lower (ToLower d.lower svc.Spec.Expose.Type_) =
      ToLower d.lower svc.Spec.Expose.Type_)
    (hagg : ∀ name,
      d.GetAggregatedAnnotations
        (withExposeType svc (ToLower d.lower svc.Spec.Expose.Type_)) name =
      d.GetAggregatedAnnotations svc name) :
    (isExposeConfigUpToDate d
        (withExposeType svc (ToLower d.lower svc.Spec.Expose.Type_)) hc).calls =
      (isExposeConfigUpToDate d svc hc).calls ∧
    (isExposeConfigUpToDate d
        (withExposeType svc (ToLower d.lower svc.Spec.Expose.Type_)) hc).ret.map
        (fun r => (r.1, r.2.isSome)) =
      (isExposeConfigUpToDate d svc hc).ret.map (fun r => (r.1, r.2.isSome)) ∧
    (ToLower d.lower svc.Spec.Expose.Type_ = "" ∨
        ToLower d.lower svc.Spec.Expose.Type_ = "service" →
      isExposeConfigUpToDate d
          (withExposeType svc (ToLower d.lower svc.Spec.Expose.Type_)) hc =
        isExposeConfigUpToDate d svc hc) ∧
    (ToLower d.lower svc.Spec.Expose.Type_ = "" ↔ svc.Spec.Expose.Type_ = "") := by
  have hL : ToLower d.lower
      (withExposeType svc (ToLower d.lower svc.Spec.Expose.Type_)).Spec.Expose.Type_ =
      ToLower d.lower svc.Spec.Expose.Type_ := hidem
  have hsupp : ToLower d.lower svc.Spec.Expose.Type_ = "" ∨
      ToLower d.lower svc.Spec.Expose.Type_ = "service" →
      isExposeConfigUpToDate d
          (withExposeType svc (ToLower d.lower svc.Spec.Expose.Type_)) hc =
        isExposeConfigUpToDate d svc hc := by
    rintro (hnone | hmode)
    · simp only [isExposeConfigUpToDate, hL]
      simp [hnone]
    · rw [isExposeConfigUpToDate_service_eq d svc hc hmode,
        isExposeConfigUpToDate_service_eq d _ hc (hL.trans hmode)]
      simp only [deckCheck, gateCheck, isExposeServiceUpToDate_withExposeType d svc _ _ _ hagg]
  by_cases hnone : ToLower d.lower svc.Spec.Expose.Type_ = ""
  · rw [hsupp (Or.inl hnone)]
    exact ⟨rfl, rfl, fun _ => rfl, ToLower_eq_empty _ _⟩
  · by_cases hmode : ToLower d.lower svc.Spec.Expose.Type_ = "service"
    · rw [hsupp (Or.inr hmode)]
      exact ⟨rfl, rfl, fun _ => rfl, ToLower_eq_empty _ _⟩
    · refine ⟨?_, ?_, hsupp, ToLower_eq_empty _ _⟩
      · simp only [isExposeConfigUpToDate, hL]
        simp [hnone, hmode]
      · simp only [isExposeConfigUpToDate, hL]
        simp [hnone, hmode]

/-- Witness of C19, amended: the expose type `Service` is handled as
`service`. -/
theorem isExposeConfigUpToDate_lowercase_witness :
    ToLower emptyCluster.lower (ToLower emptyCluster.lower "Service") =
      ToLower emptyCluster.lower "Service" ∧
    ToLower emptyCluster.lower "Service" = "service" ∧
    isExposeConfigUpToDate emptyCluster (demoService "service" ⟨none, none⟩) plainConfig =
      isExposeConfigUpToDate emptyCluster (demoService "Service" ⟨none, none⟩) plainConfig :=
  ⟨by decide, by decide,
    (isExposeConfigUpToDate_lowercase emptyCluster (demoService "Service" ⟨none, none⟩)
      plainConfig (by decide) (fun _ => rfl)).2.2.1 (Or.inr (by decide))⟩

end Deployer
